import Mathlib

/-!
Shallow embedding of the car-rental backend (`src/main.py`, `src/schemas.py`).

Stored records are modelled as association lists from field names to BSON-like
values; the endpoint handlers of `main.py` are translated into pure Lean
functions over an explicit store state.  The MongoDB client and the helper
module `database.py` are external to `src/`; where their behaviour decides a
claim it is modelled from the specification's Record Store Gateway contract
(section 4.3) and marked as such in the doc comment.
-/

/-- A BSON-like value as it appears in the Python dictionaries of `main.py`:
strings, numbers (modelled as rationals; the code only ever compares them),
booleans, ObjectIds (carrying their 24-hex-character representation), `None`,
lists, and nested documents. -/
inductive BVal where
  | str (s : String)
  | num (q : Rat)
  | bool (b : Bool)
  | oid (s : String)
  | null
  | list (vs : List BVal)
  | doc (fields : List (String × BVal))
deriving Repr

/-- A stored record: a Python `dict` preserving insertion order, as MongoDB
documents and the handlers of `main.py` do. -/
abbrev Doc := List (String × BVal)

/-- First value bound to key `k`, mirroring Python `d[k]` / `d.get(k)` on a
dict whose keys are unique. -/
def alookup {α : Type} (k : String) : List (String × α) → Option α
  | [] => none
  | (k', v) :: rest => if k' = k then some v else alookup k rest

/-- Keys of a record in order, mirroring `list(d.keys())`. -/
def keysOf {α : Type} (d : List (String × α)) : List String :=
  d.map Prod.fst

/-- Removal of the field bound to `k` (order of the other fields
preserved). -/
def eraseKey (k : String) : Doc → Doc
  | [] => []
  | (k', v) :: rest => if k' = k then rest else (k', v) :: eraseKey k rest

/-- Python `d.pop(k)`: the removed value together with the remaining record
(order of the other fields preserved); `none` models the `KeyError` raised
when `k` is absent. -/
def popKey (k : String) (d : Doc) : Option (BVal × Doc) :=
  match alookup k d with
  | none => none
  | some v => some (v, eraseKey k d)

/-- Python `d[k] = v` on a dict: overwrite in place when the key exists,
otherwise append the new field at the end. -/
def setKey (k : String) (v : BVal) : Doc → Doc
  | [] => [(k, v)]
  | (k', v') :: rest =>
    if k' = k then (k', v) :: rest else (k', v') :: setKey k v rest

/-- Python `str(v)` restricted to the values this codebase stringifies: an
`ObjectId` renders as its hex string and a string as itself (the only cases
`serialize_doc` reaches on stored records); the remaining cases render
abbreviated, and no claim depends on them. -/
def strOfBVal : BVal → String
  | .str s => s
  | .oid s => s
  | .num q => toString q
  | .bool b => if b then "True" else "False"
  | .null => "None"
  | .list _ => "[...]"
  | .doc _ => "\x7b...\x7d"

/-- The single value-rewriting step of `serialize_doc`'s loop: an `ObjectId`
value becomes its string, everything else is untouched. -/
def stringifyVal : BVal → BVal
  | .oid s => .str s
  | v => v

/-- The `for k, v in list(doc.items())` loop of `serialize_doc`
(`src/main.py:38`-`40`): stringify every ObjectId value in place. -/
def stringifyOids (d : Doc) : Doc :=
  d.map (fun p => (p.1, stringifyVal p.2))

/-- Embeds `serialize_doc` (`src/main.py:34`-`41`).  An empty record is returned
unchanged; otherwise `_id` is popped (a missing `_id` raises `KeyError`,
modelled as `.error`), `id` is bound to its stringification, and every
remaining ObjectId value is stringified in place. -/
def serialize_doc (d : Doc) : Except String Doc :=
  if d.isEmpty then .ok d
  else
    match popKey "_id" d with
    | none => .error "KeyError: _id"
    | some (v, rest) => .ok (stringifyOids (setKey "id" (.str (strOfBVal v)) rest))

/-- Wrapper: `serialize_doc` applied to a possibly-`None` argument: Python's
`if not doc: return doc` returns `None` unchanged. -/
def serializeDocOpt : Option Doc → Except String (Option Doc)
  | none => .ok none
  | some d => (serialize_doc d).map some

/-- One field condition of a MongoDB-style query as `list_cars`, `get_car`,
`create_booking` and `list_bookings` build them: either a direct equality
value, or a `\x7b"$gte": lo, "$lte": hi\x7d` range document with each bound
optional. -/
inductive QCond where
  | eq (v : BVal)
  | range (lo hi : Option Rat)
deriving Repr

/-- A query: an insertion-ordered dict from field names to conditions. -/
abbrev Query := List (String × QCond)

/-- Scalar value equality as the store's equality match applies it.  The
queries of this codebase only ever compare strings and ObjectIds; aggregate
values never appear in a query. -/
def bvalEqScalar : BVal → BVal → Bool
  | .str a, .str b => a = b
  | .num a, .num b => a = b
  | .bool a, .bool b => a = b
  | .oid a, .oid b => a = b
  | .null, .null => true
  | _, _ => false

/-- A numeric value within the optional `$gte`/`$lte` bounds of a range
condition. -/
def rangeHolds (lo hi : Option Rat) (q : Rat) : Bool :=
  (match lo with | some l => decide (l ≤ q) | none => true) &&
  (match hi with | some h => decide (q ≤ h) | none => true)

/-- A present field value satisfying one condition: equality against the
given scalar, or a numeric value within the range bounds. -/
def condHolds (v : BVal) : QCond → Bool
  | .eq w => bvalEqScalar v w
  | .range lo hi =>
    match v with
    | .num q => rangeHolds lo hi q
    | _ => false

/-- Modelled from the spec: the Record Store Gateway contract (section 4.3)
says `find(collection, predicate)` returns the records satisfying the
predicate; `database.py` and the MongoDB client are not under `src/`.  A
record satisfies one field condition when the field is present and its value
satisfies it. -/
def matchesCond (d : Doc) (k : String) (c : QCond) : Bool :=
  match alookup k d with
  | some v => condHolds v c
  | none => false

/-- A record matches a query when it satisfies the conjunction of its field
conditions (Modelled from the spec: section 4.3's `find` contract). -/
def matchesQuery (q : Query) (d : Doc) : Bool :=
  q.all (fun p => matchesCond d p.1 p.2)

/-- The gateway's `find(collection, predicate)` over an explicit collection state. -/
def findDocs (q : Query) (coll : List Doc) : List Doc :=
  coll.filter (matchesQuery q)

/-- The gateway's `find_one(collection, predicate)`: the first matching record, `none` on a
miss (Modelled from the spec: section 4.3's `find_one` contract). -/
def findOne (q : Query) (coll : List Doc) : Option Doc :=
  coll.find? (matchesQuery q)

/-- The optional filter parameters of `GET /api/cars`
(`src/main.py:73`-`82`). -/
structure CarFilters where
  type? : Option String := none
  brand? : Option String := none
  transmission? : Option String := none
  fuel_type? : Option String := none
  seats_gte? : Option Int := none
  min_price? : Option Rat := none
  max_price? : Option Rat := none
deriving Repr

/-- One `if param: query[k] = param` step of `list_cars`
(`src/main.py:129`-`136`): Python truthiness skips both `None` and the empty
string. -/
def strFilterPart (k : String) : Option String → Query
  | none => []
  | some s => if s = "" then [] else [(k, .eq (.str s))]

/-- The `if seats_gte is not None` step (`src/main.py:137`-`138`): a
`\x7b"$gte": seats_gte\x7d` condition; `is not None` does not drop zero. -/
def seatsPart : Option Int → Query
  | none => []
  | some n => [("seats", .range (some (n : Rat)) none)]

/-- The price-range block of `list_cars` (`src/main.py:139`-`145`): present
when at least one bound is given, carrying `$gte` for `min_price` and `$lte`
for `max_price`. -/
def pricePart (lo hi : Option Rat) : Query :=
  if lo = none ∧ hi = none then [] else [("price_per_day", .range lo hi)]

/-- The full query built by `list_cars` (`src/main.py:128`-`145`): successive
dict insertions with pairwise-distinct keys, hence a concatenation. -/
def buildCarQuery (f : CarFilters) : Query :=
  strFilterPart "type" f.type? ++ strFilterPart "brand" f.brand? ++
  strFilterPart "transmission" f.transmission? ++
  strFilterPart "fuel_type" f.fuel_type? ++
  seatsPart f.seats_gte? ++ pricePart f.min_price? f.max_price?

/-- The query built by `list_bookings` (`src/main.py:245`-`247`): a single
optional truthiness-guarded equality on `user_id`. -/
def buildBookingQuery (user_id? : Option String) : Query :=
  strFilterPart "user_id" user_id?

/-- The `sort_map` lookup table of `list_cars` (`src/main.py:147`-`152`):
sort key to (field, direction). -/
def sortMapLookup (s : String) : Option (String × Int) :=
  if s = "price_asc" then some ("price_per_day", 1)
  else if s = "price_desc" then some ("price_per_day", -1)
  else if s = "popularity" then some ("popularity", -1)
  else if s = "newest" then some ("created_at", -1)
  else none

/-- Modelled from the spec: the store's value ordering used by the sort
directive (section 4.1 maps sort keys to field/direction pairs; the store
itself is external).  Missing values and nulls order first, numbers and
strings by their own orders; only the induced permutation matters to the
claims. -/
def bvalRankForSort : Option BVal → Nat
  | none => 0
  | some .null => 0
  | some (.num _) => 1
  | some (.str _) => 2
  | some (.doc _) => 3
  | some (.list _) => 4
  | some (.bool _) => 5
  | some (.oid _) => 6

/-- Ordering on optional field values for the sort directive (Modelled from
the spec, see `bvalRankForSort`). -/
def valLE : Option BVal → Option BVal → Bool
  | some (.num a), some (.num b) => decide (a ≤ b)
  | some (.str a), some (.str b) => decide (a ≤ b)
  | a, b => decide (bvalRankForSort a ≤ bvalRankForSort b)

/-- Record comparison under a (field, direction) sort directive. -/
def docLE (field : String) (dir : Int) (a b : Doc) : Bool :=
  if dir = 1 then valLE (alookup field a) (alookup field b)
  else valLE (alookup field b) (alookup field a)

/-- The `if sort and sort in sort_map: cursor.sort(...)` step of `list_cars`
(`src/main.py:155`-`157`): an unrecognized or falsy sort key applies no
sort. -/
def applySort (sort? : Option String) (docs : List Doc) : List Doc :=
  match sort? with
  | none => docs
  | some s =>
    if s = "" then docs
    else
      match sortMapLookup s with
      | none => docs
      | some fd => docs.mergeSort (docLE fd.1 fd.2)

/-- An endpoint outcome: a JSON payload, or an `HTTPException`-style failure
with its status code and detail. -/
inductive HttpResult (α : Type) where
  | ok (a : α)
  | err (status : Nat) (detail : String)
deriving Repr

/-- The `\x7b"items": [...], "count": len(items)\x7d` response shape of the
listing endpoints. -/
structure ListResp where
  items : List Doc
  count : Nat
deriving Repr

/-- The `[serialize_doc(doc) for doc in cursor]` comprehension
(`src/main.py:160`): serialize in order, the first failure propagating. -/
def serializeItems : List Doc → Except String (List Doc)
  | [] => .ok []
  | d :: ds =>
    match serialize_doc d, serializeItems ds with
    | .ok d', .ok ds' => .ok (d' :: ds')
    | .error e, _ => .error e
    | .ok _, .error e => .error e

/-- Modelled from the spec: FastAPI's `Query(ge, le)` parameter validation is
framework code outside `src/`; sections 4.1 and 8 state that out-of-range
`seats_gte`, prices and `limit` are rejected with a 400-class failure before
the handler runs, and section 8 writes the status as 400. -/
def carParamsValid (f : CarFilters) (limit : Int) : Bool :=
  (match f.seats_gte? with | some n => decide (1 ≤ n ∧ n ≤ 9) | none => true) &&
  (match f.min_price? with | some q => decide (0 ≤ q) | none => true) &&
  (match f.max_price? with | some q => decide (0 ≤ q) | none => true) &&
  decide (1 ≤ limit ∧ limit ≤ 200)

/-- The fixed demo dataset of the `db is None` branch of `list_cars`
(`src/main.py:86`-`125`). -/
def demoCarsNoDb : List Doc :=
  [[("id", .str "demo-1"), ("brand", .str "Tesla"), ("model", .str "Model 3"),
    ("type", .str "sedan"), ("transmission", .str "automatic"),
    ("fuel_type", .str "electric"), ("seats", .num 5), ("luggage", .num 3),
    ("mileage", .num 12000), ("price_per_day", .num 89),
    ("popularity", .num 98),
    ("images", .list [.str "https://images.unsplash.com/photo-1511390420183-3a2c5a36f3f1?q=80&w=1200&auto=format&fit=crop"]),
    ("features", .list [.str "Autopilot", .str "Bluetooth", .str "A/C"]),
    ("available", .bool true),
    ("description", .str "Sleek EV with long range and premium comfort.")],
   [("id", .str "demo-2"), ("brand", .str "BMW"), ("model", .str "X5"),
    ("type", .str "suv"), ("transmission", .str "automatic"),
    ("fuel_type", .str "hybrid"), ("seats", .num 5), ("luggage", .num 4),
    ("mileage", .num 24000), ("price_per_day", .num 129),
    ("popularity", .num 92),
    ("images", .list [.str "https://images.unsplash.com/photo-1619767886558-efdc259cde1c?q=80&w=1200&auto=format&fit=crop"]),
    ("features", .list [.str "Panoramic Roof", .str "Leather", .str "GPS"]),
    ("available", .bool true),
    ("description", .str "Luxury SUV perfect for family trips.")]]

/-- Embeds `list_cars` (`src/main.py:72`-`161`) over an explicit store state:
`none` is the `db is None` demo fallback; otherwise build the query, find,
optionally sort, cap at `limit`, and serialize each record. -/
def list_cars (store? : Option (List Doc)) (f : CarFilters)
    (sort? : Option String) (limit : Int) : HttpResult ListResp :=
  if ¬ carParamsValid f limit then .err 400 "validation error"
  else
    match store? with
    | none =>
      let items := demoCarsNoDb.take limit.toNat
      .ok ⟨items, items.length⟩
    | some store =>
      let taken := (applySort sort? (findDocs (buildCarQuery f) store)).take limit.toNat
      match serializeItems taken with
      | .ok items => .ok ⟨items, items.length⟩
      | .error e => .err 500 e

/-- Hex-digit test used by `ObjectId.is_valid` / the `ObjectId(s)` constructor from
the external `bson` library: 24 hexadecimal characters. -/
def isHexDigitChar (c : Char) : Bool :=
  c.isDigit || ('a' ≤ c && c ≤ 'f') || ('A' ≤ c && c ≤ 'F')

/-- A well-formed store identifier string per `bson.ObjectId`. -/
def isValidObjectId (s : String) : Bool :=
  s.length = 24 && s.data.all isHexDigitChar

/-- The fixed demo car of the `db is None` branch of `get_car`
(`src/main.py:167`-`191`). -/
def demoCarNoDb (car_id : String) : Doc :=
  [("id", .str car_id), ("brand", .str "Tesla"),
   ("model", .str "Model 3 Performance"), ("type", .str "sedan"),
   ("transmission", .str "automatic"), ("fuel_type", .str "electric"),
   ("seats", .num 5), ("luggage", .num 3), ("mileage", .num 12000),
   ("price_per_day", .num 99), ("popularity", .num 99),
   ("images", .list [.str "https://images.unsplash.com/photo-1511390420183-3a2c5a36f3f1?q=80&w=1200&auto=format&fit=crop",
                     .str "https://images.unsplash.com/photo-1549921296-3c2b3f6b33b5?q=80&w=1200&auto=format&fit=crop"]),
   ("features", .list [.str "Autopilot", .str "Heated Seats", .str "Premium Audio"]),
   ("available", .bool true),
   ("description", .str "Performance EV with thrilling acceleration."),
   ("reviews", .list [.doc [("user", .str "Alex"), ("rating", .num 5), ("comment", .str "Amazing ride!")],
                      .doc [("user", .str "Sam"), ("rating", .num 4), ("comment", .str "Very comfortable.")]])]

/-- Embeds `get_car` (`src/main.py:164`-`201`): demo car when no store is
configured; otherwise 400 on a malformed id, 404 when `find_one` misses or
returns a falsy record, else the serialized record. -/
def get_car (store? : Option (List Doc)) (car_id : String) : HttpResult Doc :=
  match store? with
  | none => .ok (demoCarNoDb car_id)
  | some store =>
    if ¬ isValidObjectId car_id then .err 400 "Invalid car id"
    else
      match findOne [("_id", .eq (.oid car_id))] store with
      | none => .err 404 "Car not found"
      | some d =>
        if d.isEmpty then .err 404 "Car not found"
        else
          match serialize_doc d with
          | .ok d' => .ok d'
          | .error e => .err 500 e

/-- The `BookingRequest` model of `src/main.py:56`-`64`. -/
structure BookingRequest where
  user_id : String
  car_id : String
  pickup_location : String
  dropoff_location : String
  start_date : String
  end_date : String
  total_price : Rat
  notes : Option String := none
deriving Repr

/-- Embeds `payload.model_dump()` (`src/main.py:220`): the request's fields as a
dict in declaration order, `notes = None` dumped as null. -/
def modelDump (p : BookingRequest) : Doc :=
  [("user_id", .str p.user_id), ("car_id", .str p.car_id),
   ("pickup_location", .str p.pickup_location),
   ("dropoff_location", .str p.dropoff_location),
   ("start_date", .str p.start_date), ("end_date", .str p.end_date),
   ("total_price", .num p.total_price),
   ("notes", match p.notes with | some s => .str s | none => .null)]

/-- The store's state: the two collections the handlers touch plus the
counter from which fresh identifiers are assigned. -/
structure DB where
  car : List Doc
  booking : List Doc
  nextId : Nat
deriving Repr

/-- A fresh 24-hex-character identifier derived from the store's counter:
the hexadecimal digits of `n`, left-padded with zeros. -/
def oidOfNat (n : Nat) : String :=
  let ds := Nat.toDigits 16 n
  String.mk (List.replicate (24 - ds.length) '0' ++ ds)

/-- Append `(k, v)` when `k` is absent, mirroring a schema default being
filled for a missing field. -/
def withDefault (k : String) (v : BVal) (d : Doc) : Doc :=
  if (alookup k d).isNone then d ++ [(k, v)] else d

/-- Modelled from the spec: `create_document` lives in `database.py`, which
is not under `src/`.  Per the schema layer (`src/schemas.py:39`-`49` and its
module docstring "Use these for validation when creating documents") a
booking record is validated against the `Booking` model, filling the
defaults `status = "pending"` and `payment_status = "unpaid"`. -/
def bookingWithDefaults (d : Doc) : Doc :=
  withDefault "payment_status" (.str "unpaid") (withDefault "status" (.str "pending") d)

/-- Modelled from the spec: the gateway contract (section 4.3) says
`insert(collection, record)` assigns a fresh identifier and returns it; the
inserted record carries it under `_id`.  Specialized to the `booking`
collection, whose schema defaults are filled on creation. -/
def create_document (coll : List Doc) (nextId : Nat) (data : Doc) :
    String × List Doc × Nat :=
  let assigned := oidOfNat nextId
  (assigned, coll ++ [("_id", .oid assigned) :: bookingWithDefaults data], nextId + 1)

/-- Embeds `create_booking` (`src/main.py:204`-`223`): mock booking when no store
is configured; otherwise 400 on a malformed `car_id`, 404 when the car does
not exist (state unchanged), else insert via `create_document`, re-read the
record by its assigned identifier and serialize it (a `None` re-read
serializes to `None`, a null response body). -/
def create_booking (db? : Option DB) (p : BookingRequest) :
    HttpResult (Option Doc) × Option DB :=
  match db? with
  | none =>
    (.ok (some (("id", .str "demo-booking-123") :: ("status", .str "pending") :: modelDump p)),
     none)
  | some db =>
    if ¬ isValidObjectId p.car_id then (.err 400 "Invalid car id", some db)
    else
      match findOne [("_id", .eq (.oid p.car_id))] db.car with
      | none => (.err 404 "Car not found", some db)
      | some car =>
        if car.isEmpty then (.err 404 "Car not found", some db)
        else
          let r := create_document db.booking db.nextId (modelDump p)
          let db' : DB := { db with booking := r.2.1, nextId := r.2.2 }
          if ¬ isValidObjectId r.1 then (.err 500 "Invalid objectid", some db')
          else
            match serializeDocOpt (findOne [("_id", .eq (.oid r.1))] db'.booking) with
            | .ok d? => (.ok d?, some db')
            | .error e => (.err 500 e, some db')

/-- The three response shapes of `POST /api/seed`
(`src/main.py:256`, `258`, `317`). -/
inductive SeedResp where
  | noDb (message : String)
  | okMsg (message : String)
  | okInserted (inserted : Nat)
deriving Repr

/-- Embeds `db["car"].count_documents(query)` (Modelled from the spec: the gateway's
`count(collection, predicate)` contract, section 4.3). -/
def count_documents (q : Query) (coll : List Doc) : Nat :=
  (findDocs q coll).length

/-- The three fixed demo car records of `seed_demo_cars`
(`src/main.py:260`-`315`), as submitted to `insert_many`. -/
def demoSeedCars : List Doc :=
  [[("brand", .str "Tesla"), ("model", .str "Model 3"), ("type", .str "sedan"),
    ("transmission", .str "automatic"), ("fuel_type", .str "electric"),
    ("seats", .num 5), ("luggage", .num 3), ("mileage", .num 12000),
    ("price_per_day", .num 89), ("popularity", .num 98),
    ("images", .list [.str "https://images.unsplash.com/photo-1511390420183-3a2c5a36f3f1?q=80&w=1200&auto=format&fit=crop"]),
    ("features", .list [.str "Autopilot", .str "Bluetooth", .str "A/C"]),
    ("available", .bool true),
    ("description", .str "Sleek EV with long range and premium comfort.")],
   [("brand", .str "BMW"), ("model", .str "X5"), ("type", .str "suv"),
    ("transmission", .str "automatic"), ("fuel_type", .str "hybrid"),
    ("seats", .num 5), ("luggage", .num 4), ("mileage", .num 24000),
    ("price_per_day", .num 129), ("popularity", .num 92),
    ("images", .list [.str "https://images.unsplash.com/photo-1619767886558-efdc259cde1c?q=80&w=1200&auto=format&fit=crop"]),
    ("features", .list [.str "Panoramic Roof", .str "Leather", .str "GPS"]),
    ("available", .bool true),
    ("description", .str "Luxury SUV perfect for family trips.")],
   [("brand", .str "Toyota"), ("model", .str "Corolla"), ("type", .str "sedan"),
    ("transmission", .str "automatic"), ("fuel_type", .str "petrol"),
    ("seats", .num 5), ("luggage", .num 3), ("mileage", .num 40000),
    ("price_per_day", .num 49), ("popularity", .num 85),
    ("images", .list [.str "https://images.unsplash.com/photo-1549921296-3c2b3f6b33b5?q=80&w=1200&auto=format&fit=crop"]),
    ("features", .list [.str "Great MPG", .str "A/C", .str "USB"]),
    ("available", .bool true),
    ("description", .str "Reliable and efficient daily driver.")]]

/-- Modelled from the spec: `insert_many` via the gateway's insert contract
(section 4.3), each record receiving a successive fresh identifier. -/
def insertManyGo (nextId : Nat) : List Doc → List Doc
  | [] => []
  | d :: ds => (("_id", .oid (oidOfNat nextId)) :: d) :: insertManyGo (nextId + 1) ds

/-- Embeds `seed_demo_cars` (`src/main.py:253`-`317`): report when no store is
configured; report "Cars already exist" and insert nothing when any car
record exists; otherwise bulk-insert the three fixed demo records. -/
def seed_demo_cars (db? : Option DB) : SeedResp × Option DB :=
  match db? with
  | none => (.noDb "Database not configured in this environment", none)
  | some db =>
    if count_documents [] db.car > 0 then (.okMsg "Cars already exist", some db)
    else
      (.okInserted demoSeedCars.length,
       some { db with car := db.car ++ insertManyGo db.nextId demoSeedCars,
                      nextId := db.nextId + demoSeedCars.length })

/-! ### Association-list lemmas -/

theorem keysOf_nil {α : Type} : keysOf ([] : List (String × α)) = [] := rfl

theorem keysOf_cons {α : Type} (k : String) (v : α) (tl : List (String × α)) :
    keysOf ((k, v) :: tl) = k :: keysOf tl := rfl

theorem keysOf_append {α : Type} (l1 l2 : List (String × α)) :
    keysOf (l1 ++ l2) = keysOf l1 ++ keysOf l2 := by
  simp [keysOf]

theorem alookup_eq_none_iff {α : Type} {k : String} {d : List (String × α)} :
    alookup k d = none ↔ k ∉ keysOf d := by
  induction d with
  | nil => simp [alookup, keysOf_nil]
  | cons hd tl ih =>
    obtain ⟨k', v⟩ := hd
    rw [alookup, keysOf_cons]
    by_cases h : k' = k
    · subst h; simp
    · simp only [if_neg h, ih, List.mem_cons]
      constructor
      · intro hn hc
        rcases hc with hc | hc
        · exact h hc.symm
        · exact hn hc
      · intro hn hc
        exact hn (Or.inr hc)

theorem alookup_append {α : Type} (k : String) (l1 l2 : List (String × α)) :
    alookup k (l1 ++ l2) = (alookup k l1).or (alookup k l2) := by
  induction l1 with
  | nil => simp [alookup]
  | cons hd tl ih =>
    obtain ⟨k', v⟩ := hd
    rw [List.cons_append, alookup, alookup]
    by_cases h : k' = k
    · simp [h]
    · simp [h, ih]

theorem alookup_eraseKey_ne {k k' : String} (hne : k' ≠ k) (d : Doc) :
    alookup k' (eraseKey k d) = alookup k' d := by
  induction d with
  | nil => rfl
  | cons hd tl ih =>
    obtain ⟨k0, w⟩ := hd
    rw [eraseKey]
    by_cases hk : k0 = k
    · subst hk
      rw [if_pos rfl, alookup, if_neg (fun h' => hne h'.symm)]
    · rw [if_neg hk, alookup, alookup]
      by_cases hk' : k0 = k'
      · simp [hk']
      · simp [hk', ih]

theorem keysOf_eraseKey (k : String) (d : Doc) :
    keysOf (eraseKey k d) = (keysOf d).erase k := by
  induction d with
  | nil => rfl
  | cons hd tl ih =>
    obtain ⟨k0, w⟩ := hd
    rw [eraseKey, keysOf_cons, List.erase_cons]
    by_cases hk : k0 = k
    · simp [hk]
    · simp only [if_neg hk, beq_iff_eq, hk, if_false, keysOf_cons, ih]

theorem popKey_some_alookup {k : String} {d : Doc} {v : BVal} {rest : Doc}
    (h : popKey k d = some (v, rest)) : alookup k d = some v ∧ rest = eraseKey k d := by
  rw [popKey] at h
  cases ha : alookup k d with
  | none => rw [ha] at h; simp at h
  | some w =>
    rw [ha] at h
    simp only [Option.some.injEq, Prod.mk.injEq] at h
    refine ⟨?_, h.2.symm⟩
    rw [h.1]

theorem popKey_of_alookup {k : String} {d : Doc} {v : BVal}
    (h : alookup k d = some v) : popKey k d = some (v, eraseKey k d) := by
  rw [popKey, h]

theorem popKey_eq_none_iff {k : String} {d : Doc} :
    popKey k d = none ↔ alookup k d = none := by
  rw [popKey]
  cases alookup k d <;> simp

theorem setKey_of_not_mem {k : String} {d : Doc} (h : k ∉ keysOf d) (v : BVal) :
    setKey k v d = d ++ [(k, v)] := by
  induction d with
  | nil => rfl
  | cons hd tl ih =>
    obtain ⟨k0, w⟩ := hd
    rw [keysOf_cons, List.mem_cons] at h
    push_neg at h
    rw [setKey, if_neg (fun h' => h.1 h'.symm), List.cons_append, ih h.2]

theorem alookup_setKey_ne {k k' : String} (hne : k' ≠ k) (v : BVal) (d : Doc) :
    alookup k' (setKey k v d) = alookup k' d := by
  have h0 : ¬ k = k' := fun h' => hne h'.symm
  induction d with
  | nil =>
    simp only [setKey, alookup]
    rw [if_neg h0]
  | cons hd tl ih =>
    obtain ⟨k0, w⟩ := hd
    by_cases hk : k0 = k
    · subst hk
      simp only [setKey, if_pos rfl, alookup]
      rw [if_neg h0, if_neg h0]
    · simp only [setKey, if_neg hk, alookup]
      by_cases hk' : k0 = k'
      · rw [if_pos hk', if_pos hk']
      · rw [if_neg hk', if_neg hk', ih]

theorem mem_keysOf_setKey {k k' : String} {v : BVal} {d : Doc} :
    k' ∈ keysOf (setKey k v d) ↔ k' = k ∨ k' ∈ keysOf d := by
  induction d with
  | nil => simp [setKey, keysOf_cons, keysOf_nil]
  | cons hd tl ih =>
    obtain ⟨k0, w⟩ := hd
    by_cases hk : k0 = k
    · subst hk
      simp [setKey, keysOf_cons]
    · simp only [setKey, if_neg hk, keysOf_cons, List.mem_cons, ih]
      tauto

theorem keysOf_stringifyOids (d : Doc) : keysOf (stringifyOids d) = keysOf d := by
  induction d with
  | nil => rfl
  | cons hd tl ih =>
    obtain ⟨k0, w⟩ := hd
    have e : stringifyOids ((k0, w) :: tl) = (k0, stringifyVal w) :: stringifyOids tl := rfl
    rw [e, keysOf_cons, keysOf_cons, ih]

theorem alookup_stringifyOids (k : String) (d : Doc) :
    alookup k (stringifyOids d) = (alookup k d).map stringifyVal := by
  induction d with
  | nil => simp [stringifyOids, alookup]
  | cons hd tl ih =>
    obtain ⟨k0, w⟩ := hd
    have e : stringifyOids ((k0, w) :: tl) = (k0, stringifyVal w) :: stringifyOids tl := rfl
    by_cases hk : k0 = k
    · rw [e, alookup, if_pos hk, alookup, if_pos hk]
      rfl
    · rw [e, alookup, if_neg hk, alookup, if_neg hk]
      exact ih

theorem stringifyVal_idem (v : BVal) : stringifyVal (stringifyVal v) = stringifyVal v := by
  cases v <;> rfl

theorem stringifyOids_idem (d : Doc) : stringifyOids (stringifyOids d) = stringifyOids d := by
  induction d with
  | nil => rfl
  | cons hd tl ih =>
    obtain ⟨k0, w⟩ := hd
    have e : stringifyOids ((k0, w) :: tl) = (k0, stringifyVal w) :: stringifyOids tl := rfl
    have e2 : stringifyOids ((k0, stringifyVal w) :: stringifyOids tl) =
        (k0, stringifyVal (stringifyVal w)) :: stringifyOids (stringifyOids tl) := rfl
    rw [e, e2, stringifyVal_idem, ih]

theorem serialize_doc_of_alookup {d : Doc} {v : BVal} (h : alookup "_id" d = some v) :
    serialize_doc d =
      .ok (stringifyOids (setKey "id" (.str (strOfBVal v)) (eraseKey "_id" d))) := by
  have hne : d ≠ [] := by
    intro he
    rw [he, alookup] at h
    exact Option.noConfusion h
  rw [serialize_doc, if_neg (by simpa [List.isEmpty_iff] using hne), popKey_of_alookup h]

theorem serialize_doc_err_of_none {d : Doc} (hne : d ≠ []) (h : alookup "_id" d = none) :
    serialize_doc d = .error "KeyError: _id" := by
  rw [serialize_doc, if_neg (by simpa [List.isEmpty_iff] using hne),
    popKey_eq_none_iff.mpr h]

theorem serialize_doc_alookup {d d' : Doc} (h : serialize_doc d = .ok d')
    {k : String} (h1 : k ≠ "_id") (h2 : k ≠ "id") :
    alookup k d' = (alookup k d).map stringifyVal := by
  by_cases he : d = []
  · subst he
    have h0 : ([] : Doc) = d' := by simpa [serialize_doc] using h
    rw [← h0]
    simp [alookup]
  · rw [serialize_doc, if_neg (by simpa [List.isEmpty_iff] using he)] at h
    cases hp : popKey "_id" d with
    | none => rw [hp] at h; exact Except.noConfusion h
    | some p =>
      obtain ⟨v, rest⟩ := p
      rw [hp] at h
      simp only [Except.ok.injEq] at h
      obtain ⟨hav, hrest⟩ := popKey_some_alookup hp
      rw [← h, alookup_stringifyOids, alookup_setKey_ne h2, hrest,
        alookup_eraseKey_ne h1]

theorem serializeItems_ok_mem {l l' : List Doc} (h : serializeItems l = .ok l')
    {x : Doc} (hx : x ∈ l') : ∃ d ∈ l, serialize_doc d = .ok x := by
  induction l generalizing l' with
  | nil =>
    rw [serializeItems] at h
    simp only [Except.ok.injEq] at h
    rw [← h] at hx
    exact absurd hx (List.not_mem_nil x)
  | cons d ds ih =>
    rw [serializeItems] at h
    cases hs : serialize_doc d with
    | error e => rw [hs] at h; exact Except.noConfusion h
    | ok d0 =>
      rw [hs] at h
      cases hss : serializeItems ds with
      | error e => rw [hss] at h; exact Except.noConfusion h
      | ok ds0 =>
        rw [hss] at h
        simp only [Except.ok.injEq] at h
        rw [← h] at hx
        rcases List.mem_cons.mp hx with hx | hx
        · exact ⟨d, List.mem_cons_self d ds, by rw [← hx] at hs; exact hs⟩
        · obtain ⟨d1, hd1, hser⟩ := ih hss hx
          exact ⟨d1, List.mem_cons_of_mem d hd1, hser⟩

theorem serializeItems_ok_length {l l' : List Doc} (h : serializeItems l = .ok l') :
    l'.length = l.length := by
  induction l generalizing l' with
  | nil =>
    rw [serializeItems] at h
    simp only [Except.ok.injEq] at h
    rw [← h]
  | cons d ds ih =>
    rw [serializeItems] at h
    cases hs : serialize_doc d with
    | error e => rw [hs] at h; exact Except.noConfusion h
    | ok d0 =>
      rw [hs] at h
      cases hss : serializeItems ds with
      | error e => rw [hss] at h; exact Except.noConfusion h
      | ok ds0 =>
        rw [hss] at h
        simp only [Except.ok.injEq] at h
        rw [← h]
        simp [ih hss]

theorem mem_applySort {sort? : Option String} {l : List Doc} {d : Doc} :
    d ∈ applySort sort? l ↔ d ∈ l := by
  cases sort? with
  | none => rw [applySort]
  | some s =>
    rw [applySort]
    by_cases hs : s = ""
    · rw [if_pos hs]
    · rw [if_neg hs]
      cases hfd : sortMapLookup s with
      | none => exact Iff.rfl
      | some fd => exact (List.mergeSort_perm l (docLE fd.1 fd.2)).mem_iff

theorem bvalEqScalar_stringify {v w : BVal} (hw : stringifyVal w = w)
    (h : bvalEqScalar v w = true) : stringifyVal v = v := by
  cases v <;> cases w <;> simp_all [bvalEqScalar, stringifyVal]

theorem matchesCond_iff {d : Doc} {k : String} {c : QCond} :
    matchesCond d k c = true ↔
      ∃ v, alookup k d = some v ∧ condHolds v c = true := by
  unfold matchesCond
  cases alookup k d <;> simp

theorem matchesCond_serialize {d d' : Doc} (h : serialize_doc d = .ok d')
    {k : String} {c : QCond} (h1 : k ≠ "_id") (h2 : k ≠ "id")
    (hc : ∀ v, c = QCond.eq v → stringifyVal v = v)
    (hm : matchesCond d k c = true) : matchesCond d' k c = true := by
  rw [matchesCond_iff] at hm ⊢
  obtain ⟨v, hv, hch⟩ := hm
  refine ⟨stringifyVal v, ?_, ?_⟩
  · rw [serialize_doc_alookup h h1 h2, hv]
    rfl
  · cases c with
    | eq w =>
      rw [condHolds] at hch ⊢
      rw [bvalEqScalar_stringify (hc w rfl) hch]
      exact hch
    | range lo hi =>
      cases v with
      | num q => simpa [stringifyVal, condHolds] using hch
      | str s => exact Bool.noConfusion hch
      | bool b => exact Bool.noConfusion hch
      | oid s => exact Bool.noConfusion hch
      | null => exact Bool.noConfusion hch
      | list vs => exact Bool.noConfusion hch
      | doc fs => exact Bool.noConfusion hch

theorem matchesCond_range {d : Doc} {k : String} {lo hi : Rat}
    (h : matchesCond d k (.range (some lo) (some hi)) = true) :
    ∃ p, alookup k d = some (.num p) ∧ lo ≤ p ∧ p ≤ hi := by
  rw [matchesCond_iff] at h
  obtain ⟨v, hv, hch⟩ := h
  cases v <;> simp [condHolds, rangeHolds] at hch
  case num q => exact ⟨q, hv, hch.1, hch.2⟩

theorem strFilterPart_mem {k : String} {v : Option String} {p : String × QCond}
    (h : p ∈ strFilterPart k v) : p.1 = k ∧ ∃ s, p.2 = QCond.eq (.str s) := by
  cases v with
  | none => exact absurd h (List.not_mem_nil p)
  | some s =>
    rw [strFilterPart] at h
    by_cases hs : s = ""
    · rw [if_pos hs] at h
      exact absurd h (List.not_mem_nil p)
    · rw [if_neg hs, List.mem_singleton] at h
      rw [h]
      exact ⟨rfl, s, rfl⟩

theorem seatsPart_mem {v : Option Int} {p : String × QCond} (h : p ∈ seatsPart v) :
    p.1 = "seats" ∧ ∃ lo hi, p.2 = QCond.range lo hi := by
  cases v with
  | none => exact absurd h (List.not_mem_nil p)
  | some n =>
    rw [seatsPart, List.mem_singleton] at h
    rw [h]
    exact ⟨rfl, some (n : Rat), none, rfl⟩

theorem pricePart_mem {lo hi : Option Rat} {p : String × QCond}
    (h : p ∈ pricePart lo hi) :
    p.1 = "price_per_day" ∧ ∃ l u, p.2 = QCond.range l u := by
  rw [pricePart] at h
  by_cases hc : lo = none ∧ hi = none
  · rw [if_pos hc] at h
    exact absurd h (List.not_mem_nil p)
  · rw [if_neg hc, List.mem_singleton] at h
    rw [h]
    exact ⟨rfl, lo, hi, rfl⟩

theorem buildCarQuery_good {f : CarFilters} {p : String × QCond}
    (h : p ∈ buildCarQuery f) :
    p.1 ≠ "_id" ∧ p.1 ≠ "id" ∧ ∀ v, p.2 = QCond.eq v → stringifyVal v = v := by
  rw [buildCarQuery] at h
  simp only [List.mem_append] at h
  rcases h with ((((h | h) | h) | h) | h) | h
  · obtain ⟨hk, s, hs⟩ := strFilterPart_mem h
    refine ⟨by rw [hk]; decide, by rw [hk]; decide, ?_⟩
    intro v hv
    rw [hs] at hv
    injection hv with h2
    rw [← h2]
    rfl
  · obtain ⟨hk, s, hs⟩ := strFilterPart_mem h
    refine ⟨by rw [hk]; decide, by rw [hk]; decide, ?_⟩
    intro v hv
    rw [hs] at hv
    injection hv with h2
    rw [← h2]
    rfl
  · obtain ⟨hk, s, hs⟩ := strFilterPart_mem h
    refine ⟨by rw [hk]; decide, by rw [hk]; decide, ?_⟩
    intro v hv
    rw [hs] at hv
    injection hv with h2
    rw [← h2]
    rfl
  · obtain ⟨hk, s, hs⟩ := strFilterPart_mem h
    refine ⟨by rw [hk]; decide, by rw [hk]; decide, ?_⟩
    intro v hv
    rw [hs] at hv
    injection hv with h2
    rw [← h2]
    rfl
  · obtain ⟨hk, lo, hi, hs⟩ := seatsPart_mem h
    refine ⟨by rw [hk]; decide, by rw [hk]; decide, ?_⟩
    intro v hv
    rw [hs] at hv
    exact QCond.noConfusion hv
  · obtain ⟨hk, lo, hi, hs⟩ := pricePart_mem h
    refine ⟨by rw [hk]; decide, by rw [hk]; decide, ?_⟩
    intro v hv
    rw [hs] at hv
    exact QCond.noConfusion hv

theorem matchesQuery_serialize {q : Query}
    (hg : ∀ p ∈ q, p.1 ≠ "_id" ∧ p.1 ≠ "id" ∧
      ∀ v, p.2 = QCond.eq v → stringifyVal v = v)
    {d d' : Doc} (hs : serialize_doc d = .ok d') (hm : matchesQuery q d = true) :
    matchesQuery q d' = true := by
  rw [matchesQuery, List.all_eq_true] at hm ⊢
  intro p hp
  obtain ⟨h1, h2, h3⟩ := hg p hp
  exact matchesCond_serialize hs h1 h2 h3 (hm p hp)

theorem price_mem_buildCarQuery {f : CarFilters} {mn mx : Rat}
    (hmin : f.min_price? = some mn) (hmax : f.max_price? = some mx) :
    ("price_per_day", QCond.range (some mn) (some mx)) ∈ buildCarQuery f := by
  rw [buildCarQuery]
  refine List.mem_append_right _ ?_
  rw [hmin, hmax, pricePart, if_neg (by simp)]
  exact List.mem_singleton.mpr rfl

theorem matchesQuery_mem {q : Query} {d : Doc} (hm : matchesQuery q d = true)
    {p : String × QCond} (hp : p ∈ q) : matchesCond d p.1 p.2 = true := by
  rw [matchesQuery, List.all_eq_true] at hm
  exact hm p hp

theorem list_cars_ok_inv {store : List Doc} {f : CarFilters} {sort? : Option String}
    {limit : Int} {resp : ListResp}
    (h : list_cars (some store) f sort? limit = .ok resp) :
    carParamsValid f limit = true ∧
    serializeItems ((applySort sort? (findDocs (buildCarQuery f) store)).take limit.toNat) =
      .ok resp.items ∧ resp.count = resp.items.length := by
  have h2 : (if ¬ carParamsValid f limit = true
      then (HttpResult.err 400 "validation error" : HttpResult ListResp)
      else
        match serializeItems
            ((applySort sort? (findDocs (buildCarQuery f) store)).take limit.toNat) with
        | .ok items => .ok ⟨items, items.length⟩
        | .error e => .err 500 e) = .ok resp := h
  by_cases hv : carParamsValid f limit = true
  · rw [if_neg (fun hc => hc hv)] at h2
    cases hs : serializeItems
        ((applySort sort? (findDocs (buildCarQuery f) store)).take limit.toNat) with
    | error e =>
      rw [hs] at h2
      exact HttpResult.noConfusion h2
    | ok items =>
      rw [hs] at h2
      have h3 : (HttpResult.ok ⟨items, items.length⟩ : HttpResult ListResp) = .ok resp := h2
      injection h3 with h4
      subst h4
      exact ⟨hv, rfl, rfl⟩
  · rw [if_pos hv] at h2
    exact HttpResult.noConfusion h2

theorem alookup_strFilterPart_ne {k k' : String} (h : k' ≠ k) (v : Option String) :
    alookup k' (strFilterPart k v) = none := by
  cases v with
  | none => rfl
  | some s =>
    rw [strFilterPart]
    by_cases hs : s = ""
    · rw [if_pos hs]
      rfl
    · rw [if_neg hs, alookup, if_neg (fun h0 : k = k' => h h0.symm)]
      rfl

theorem alookup_strFilterPart_self {k : String} {v : Option String} (h : v ≠ some "") :
    alookup k (strFilterPart k v) = v.map (fun s => QCond.eq (.str s)) := by
  cases v with
  | none => rfl
  | some s =>
    rw [strFilterPart, if_neg (fun hs => h (by rw [hs])), alookup, if_pos rfl]
    rfl

theorem alookup_seatsPart_ne {k' : String} (h : k' ≠ "seats") (v : Option Int) :
    alookup k' (seatsPart v) = none := by
  cases v with
  | none => rfl
  | some n =>
    rw [seatsPart, alookup, if_neg (fun h0 => h h0.symm)]
    rfl

theorem alookup_seatsPart_self (v : Option Int) :
    alookup "seats" (seatsPart v) =
      v.map (fun n => QCond.range (some (n : Rat)) none) := by
  cases v with
  | none => rfl
  | some n =>
    rw [seatsPart, alookup, if_pos rfl]
    rfl

theorem alookup_pricePart_ne {k' : String} (h : k' ≠ "price_per_day")
    (lo hi : Option Rat) : alookup k' (pricePart lo hi) = none := by
  rw [pricePart]
  by_cases hc : lo = none ∧ hi = none
  · rw [if_pos hc]
    rfl
  · rw [if_neg hc, alookup, if_neg (fun h0 => h h0.symm)]
    rfl

theorem alookup_pricePart_self (lo hi : Option Rat) :
    alookup "price_per_day" (pricePart lo hi) =
      (if lo = none ∧ hi = none then none else some (QCond.range lo hi)) := by
  rw [pricePart]
  by_cases hc : lo = none ∧ hi = none
  · rw [if_pos hc, if_pos hc]
    rfl
  · rw [if_neg hc, if_neg hc, alookup, if_pos rfl]

theorem alookup_mem_keysOf {α : Type} {k : String} {d : List (String × α)} {v : α}
    (h : alookup k d = some v) : k ∈ keysOf d := by
  by_contra hk
  rw [alookup_eq_none_iff.mpr hk] at h
  exact Option.noConfusion h

/-- C2 (counterexample): the claim fails on a non-empty record with exactly
one internal identifier field `_id` that also carries a plain (non-ObjectId)
field named `id`: that remaining field is overwritten by the stringified
`_id` instead of passing through unchanged. -/
theorem C2_counterexample :
    serialize_doc [("_id", BVal.oid "a"), ("id", BVal.str "b")] =
      .ok [("id", BVal.str "a")] ∧
    alookup "id" [("_id", BVal.oid "a"), ("id", BVal.str "b")] =
      some (BVal.str "b") ∧
    alookup "id" [("id", BVal.str "a")] ≠ some (BVal.str "b") :=
  ⟨rfl, rfl, by simp [alookup]⟩

/-- C2 (amended): for every non-empty record with unique keys containing the
single internal identifier field `_id` and no pre-existing field named `id`,
the serializer succeeds; the identifier field is renamed to a trailing `id`
key holding its stringification, every other field whose value is an
ObjectId is stringified in place, all other fields pass through unchanged,
and the key sequence is preserved except for the rename; a null or empty
input is returned unchanged. -/
theorem C2_serialize_doc_shape (d : Doc) (v : BVal)
    (hnd : (keysOf d).Nodup)
    (hid : alookup "_id" d = some v)
    (hno : "id" ∉ keysOf d) :
    (∃ d2, serialize_doc d = .ok d2 ∧
      alookup "id" d2 = some (.str (strOfBVal v)) ∧
      "_id" ∉ keysOf d2 ∧
      (∀ k w, k ≠ "_id" → alookup k d = some w →
         alookup k d2 = some (stringifyVal w)) ∧
      keysOf d2 = (keysOf d).erase "_id" ++ ["id"]) ∧
    serialize_doc [] = .ok [] ∧ serializeDocOpt none = .ok none := by
  refine ⟨?_, rfl, rfl⟩
  have hkid : "id" ∉ keysOf (eraseKey "_id" d) := by
    rw [keysOf_eraseKey]
    intro hmem
    exact hno (List.mem_of_mem_erase hmem)
  have hset : setKey "id" (.str (strOfBVal v)) (eraseKey "_id" d) =
      eraseKey "_id" d ++ [("id", .str (strOfBVal v))] :=
    setKey_of_not_mem hkid _
  refine ⟨stringifyOids (setKey "id" (.str (strOfBVal v)) (eraseKey "_id" d)),
    serialize_doc_of_alookup hid, ?_, ?_, ?_, ?_⟩
  · rw [alookup_stringifyOids, hset, alookup_append,
      alookup_eq_none_iff.mpr hkid, Option.none_or]
    rw [alookup, if_pos rfl]
    rfl
  · rw [keysOf_stringifyOids, hset, keysOf_append, keysOf_eraseKey]
    intro hmem
    rcases List.mem_append.mp hmem with hmem | hmem
    · exact absurd ((hnd.mem_erase_iff).mp hmem).1 (by simp)
    · rw [keysOf_cons, keysOf_nil] at hmem
      exact absurd hmem (by decide)
  · intro k w hkid2 hkd
    have hkne : k ≠ "id" := by
      intro hk
      exact hno (hk ▸ alookup_mem_keysOf hkd)
    rw [alookup_stringifyOids, hset, alookup_append,
      alookup_eraseKey_ne hkid2, hkd]
    rfl
  · rw [keysOf_stringifyOids, hset, keysOf_append, keysOf_eraseKey,
      keysOf_cons, keysOf_nil]

/-- C2 (witness): the amended statement applied to the concrete record
`\x7b"_id": ObjectId("aa"), "name": "n", "ref": ObjectId("bb")\x7d`. -/
theorem C2_serialize_doc_shape_witness :
    (keysOf [("_id", BVal.oid "aa"), ("name", BVal.str "n"),
      ("ref", BVal.oid "bb")]).Nodup ∧
    alookup "_id" [("_id", BVal.oid "aa"), ("name", BVal.str "n"),
      ("ref", BVal.oid "bb")] = some (BVal.oid "aa") ∧
    "id" ∉ keysOf [("_id", BVal.oid "aa"), ("name", BVal.str "n"),
      ("ref", BVal.oid "bb")] ∧
    ((∃ d2, serialize_doc [("_id", BVal.oid "aa"), ("name", BVal.str "n"),
        ("ref", BVal.oid "bb")] = .ok d2 ∧
      alookup "id" d2 = some (.str (strOfBVal (BVal.oid "aa"))) ∧
      "_id" ∉ keysOf d2 ∧
      (∀ k w, k ≠ "_id" →
         alookup k [("_id", BVal.oid "aa"), ("name", BVal.str "n"),
           ("ref", BVal.oid "bb")] = some w →
         alookup k d2 = some (stringifyVal w)) ∧
      keysOf d2 = (keysOf [("_id", BVal.oid "aa"), ("name", BVal.str "n"),
        ("ref", BVal.oid "bb")]).erase "_id" ++ ["id"]) ∧
     serialize_doc [] = .ok [] ∧ serializeDocOpt none = .ok none) :=
  ⟨by decide, rfl, by decide,
   C2_serialize_doc_shape _ (BVal.oid "aa") (by decide) rfl (by decide)⟩

/-- C3 (counterexample): the serializer is not idempotent on its own output:
on `\x7b"_id": ObjectId("a")\x7d` it succeeds, but re-applying it to the
output fails with the missing-`_id` error instead of returning the output
unchanged. -/
theorem C3_counterexample :
    serialize_doc [("_id", BVal.oid "a")] = .ok [("id", BVal.str "a")] ∧
    serialize_doc [("id", BVal.str "a")] = .error "KeyError: _id" :=
  ⟨rfl, rfl⟩

/-- C3 (amended): once applied, the serializer's output is a fixed point of
the value-stringification pass (it holds no remaining ObjectId values) and
carries no `_id` field, but re-applying the serializer to the (necessarily
non-empty) output of a non-empty record is not safe: it fails with the
missing-`_id` error rather than returning the output unchanged. -/
theorem setKey_ne_nil (k : String) (v : BVal) (d : Doc) : setKey k v d ≠ [] := by
  cases d with
  | nil => simp [setKey]
  | cons hd tl =>
    obtain ⟨k0, w⟩ := hd
    rw [setKey]
    by_cases hk : k0 = k
    · rw [if_pos hk]
      simp
    · rw [if_neg hk]
      simp

theorem C3_serialize_doc_not_idempotent (d d2 : Doc)
    (hnd : (keysOf d).Nodup) (hne : d ≠ [])
    (h : serialize_doc d = .ok d2) :
    stringifyOids d2 = d2 ∧ "_id" ∉ keysOf d2 ∧
    serialize_doc d2 = .error "KeyError: _id" := by
  rw [serialize_doc, if_neg (by simpa [List.isEmpty_iff] using hne)] at h
  cases hp : popKey "_id" d with
  | none => rw [hp] at h; exact Except.noConfusion h
  | some p =>
    obtain ⟨v, rest⟩ := p
    rw [hp] at h
    simp only [Except.ok.injEq] at h
    obtain ⟨hav, hrest⟩ := popKey_some_alookup hp
    have hd2 : d2 = stringifyOids (setKey "id" (.str (strOfBVal v)) (eraseKey "_id" d)) := by
      rw [← h, hrest]
    have hnomem : "_id" ∉ keysOf d2 := by
      rw [hd2, keysOf_stringifyOids]
      intro hmem
      rcases mem_keysOf_setKey.mp hmem with hmem | hmem
      · exact absurd hmem (by decide)
      · rw [keysOf_eraseKey] at hmem
        exact absurd ((hnd.mem_erase_iff).mp hmem).1 (by simp)
    have hne2 : d2 ≠ [] := by
      rw [hd2]
      intro hnil
      rw [stringifyOids] at hnil
      exact setKey_ne_nil "id" (.str (strOfBVal v)) (eraseKey "_id" d)
        (List.map_eq_nil_iff.mp hnil)
    exact ⟨by rw [hd2, stringifyOids_idem],
      hnomem,
      serialize_doc_err_of_none hne2 (alookup_eq_none_iff.mpr hnomem)⟩

/-- C3 (witness): the amended statement applied to the record
`\x7b"_id": ObjectId("a"), "x": 1\x7d`, on which the serializer succeeds. -/
theorem C3_serialize_doc_not_idempotent_witness :
    (keysOf [("_id", BVal.oid "a"), ("x", BVal.num 1)]).Nodup ∧
    ([("_id", BVal.oid "a"), ("x", BVal.num 1)] : Doc) ≠ [] ∧
    serialize_doc [("_id", BVal.oid "a"), ("x", BVal.num 1)] =
      .ok [("x", BVal.num 1), ("id", BVal.str "a")] ∧
    (stringifyOids [("x", BVal.num 1), ("id", BVal.str "a")] =
        [("x", BVal.num 1), ("id", BVal.str "a")] ∧
      "_id" ∉ keysOf [("x", BVal.num 1), ("id", BVal.str "a")] ∧
      serialize_doc [("x", BVal.num 1), ("id", BVal.str "a")] =
        .error "KeyError: _id") :=
  ⟨by decide, by simp, rfl,
   C3_serialize_doc_not_idempotent [("_id", BVal.oid "a"), ("x", BVal.num 1)]
     [("x", BVal.num 1), ("id", BVal.str "a")] (by decide) (by simp) rfl⟩

/-- C1: for every `GET /api/cars` call on a configured store whose parameters
pass validation, every item of the returned `items` list satisfies all of the
supplied filter predicates; in particular, when both `min_price` and
`max_price` are given, each returned item's `price_per_day` lies within
`[min_price, max_price]`. -/
theorem C1_list_cars_items_satisfy_filters
    (store : List Doc) (f : CarFilters) (sort? : Option String) (limit : Int)
    (resp : ListResp) (item : Doc)
    (hok : list_cars (some store) f sort? limit = .ok resp)
    (hmem : item ∈ resp.items) :
    matchesQuery (buildCarQuery f) item = true ∧
    ∀ mn mx, f.min_price? = some mn → f.max_price? = some mx →
      ∃ p, alookup "price_per_day" item = some (.num p) ∧ mn ≤ p ∧ p ≤ mx := by
  obtain ⟨hv, hser, hcount⟩ := list_cars_ok_inv hok
  obtain ⟨d, hd, hsd⟩ := serializeItems_ok_mem hser hmem
  have hd2 : d ∈ applySort sort? (findDocs (buildCarQuery f) store) :=
    List.take_subset _ _ hd
  have hd3 : d ∈ findDocs (buildCarQuery f) store := mem_applySort.mp hd2
  have hmatch : matchesQuery (buildCarQuery f) d = true := by
    rw [findDocs] at hd3
    exact (List.mem_filter.mp hd3).2
  have hitem : matchesQuery (buildCarQuery f) item = true :=
    matchesQuery_serialize (fun p hp => buildCarQuery_good hp) hsd hmatch
  refine ⟨hitem, ?_⟩
  intro mn mx hmn hmx
  exact matchesCond_range (matchesQuery_mem hitem (price_mem_buildCarQuery hmn hmx))

/-- The concrete store, filters and response used to witness C1. -/
def c1Store : List Doc :=
  [[("_id", BVal.oid "0123456789abcdef01234567"), ("price_per_day", BVal.num 50)]]

/-- The filter set used to witness C1: a price range `[40, 100]`. -/
def c1Filters : CarFilters := { min_price? := some 40, max_price? := some 100 }

/-- The single serialized item of the C1 witness response. -/
def c1Item : Doc :=
  [("price_per_day", BVal.num 50), ("id", BVal.str "0123456789abcdef01234567")]

/-- C1 (witness): the theorem applied to a one-car store filtered with
`min_price = 40`, `max_price = 100`. -/
theorem C1_list_cars_items_satisfy_filters_witness :
    list_cars (some c1Store) c1Filters none 50 = .ok ⟨[c1Item], 1⟩ ∧
    c1Item ∈ (⟨[c1Item], 1⟩ : ListResp).items ∧
    (matchesQuery (buildCarQuery c1Filters) c1Item = true ∧
     ∀ mn mx, c1Filters.min_price? = some mn → c1Filters.max_price? = some mx →
       ∃ p, alookup "price_per_day" c1Item = some (.num p) ∧ mn ≤ p ∧ p ≤ mx) :=
  ⟨rfl, List.mem_singleton.mpr rfl,
   C1_list_cars_items_satisfy_filters c1Store c1Filters none 50 ⟨[c1Item], 1⟩
     c1Item rfl (List.mem_singleton.mpr rfl)⟩

/-- C4: the query built by `list_cars` is exactly the conjunction of the
provided (truthy) filters, with absent filters omitted rather than encoded
as match-all: each string filter contributes an equality on its own key, the
seat filter a `$gte` condition, and the price bounds a single range
condition on `price_per_day` carrying `$gte` exactly when `min_price` is
present and `$lte` exactly when `max_price` is present, omitted entirely
when both are absent; no other key occurs, and the query is empty when all
filters are absent. -/
theorem C4_buildCarQuery_exact (f : CarFilters)
    (ht : f.type? ≠ some "") (hb : f.brand? ≠ some "")
    (htr : f.transmission? ≠ some "") (hft : f.fuel_type? ≠ some "") :
    alookup "type" (buildCarQuery f) = f.type?.map (fun s => QCond.eq (.str s)) ∧
    alookup "brand" (buildCarQuery f) = f.brand?.map (fun s => QCond.eq (.str s)) ∧
    alookup "transmission" (buildCarQuery f) =
      f.transmission?.map (fun s => QCond.eq (.str s)) ∧
    alookup "fuel_type" (buildCarQuery f) =
      f.fuel_type?.map (fun s => QCond.eq (.str s)) ∧
    alookup "seats" (buildCarQuery f) =
      f.seats_gte?.map (fun n => QCond.range (some (n : Rat)) none) ∧
    alookup "price_per_day" (buildCarQuery f) =
      (if f.min_price? = none ∧ f.max_price? = none then none
       else some (QCond.range f.min_price? f.max_price?)) ∧
    (∀ p ∈ buildCarQuery f,
       p.1 ∈ ["type", "brand", "transmission", "fuel_type", "seats",
              "price_per_day"]) ∧
    (f.type? = none → f.brand? = none → f.transmission? = none →
     f.fuel_type? = none → f.seats_gte? = none → f.min_price? = none →
     f.max_price? = none → buildCarQuery f = []) := by
  refine ⟨?_, ?_, ?_, ?_, ?_, ?_, ?_, ?_⟩
  · rw [buildCarQuery]
    simp only [alookup_append,
      alookup_strFilterPart_self ht,
      alookup_strFilterPart_ne (show ("type" : String) ≠ "brand" by decide),
      alookup_strFilterPart_ne (show ("type" : String) ≠ "transmission" by decide),
      alookup_strFilterPart_ne (show ("type" : String) ≠ "fuel_type" by decide),
      alookup_seatsPart_ne (show ("type" : String) ≠ "seats" by decide),
      alookup_pricePart_ne (show ("type" : String) ≠ "price_per_day" by decide),
      Option.or_none]
  · rw [buildCarQuery]
    simp only [alookup_append,
      alookup_strFilterPart_self hb,
      alookup_strFilterPart_ne (show ("brand" : String) ≠ "type" by decide),
      alookup_strFilterPart_ne (show ("brand" : String) ≠ "transmission" by decide),
      alookup_strFilterPart_ne (show ("brand" : String) ≠ "fuel_type" by decide),
      alookup_seatsPart_ne (show ("brand" : String) ≠ "seats" by decide),
      alookup_pricePart_ne (show ("brand" : String) ≠ "price_per_day" by decide),
      Option.none_or, Option.or_none]
  · rw [buildCarQuery]
    simp only [alookup_append,
      alookup_strFilterPart_self htr,
      alookup_strFilterPart_ne (show ("transmission" : String) ≠ "type" by decide),
      alookup_strFilterPart_ne (show ("transmission" : String) ≠ "brand" by decide),
      alookup_strFilterPart_ne (show ("transmission" : String) ≠ "fuel_type" by decide),
      alookup_seatsPart_ne (show ("transmission" : String) ≠ "seats" by decide),
      alookup_pricePart_ne (show ("transmission" : String) ≠ "price_per_day" by decide),
      Option.none_or, Option.or_none]
  · rw [buildCarQuery]
    simp only [alookup_append,
      alookup_strFilterPart_self hft,
      alookup_strFilterPart_ne (show ("fuel_type" : String) ≠ "type" by decide),
      alookup_strFilterPart_ne (show ("fuel_type" : String) ≠ "brand" by decide),
      alookup_strFilterPart_ne (show ("fuel_type" : String) ≠ "transmission" by decide),
      alookup_seatsPart_ne (show ("fuel_type" : String) ≠ "seats" by decide),
      alookup_pricePart_ne (show ("fuel_type" : String) ≠ "price_per_day" by decide),
      Option.none_or, Option.or_none]
  · rw [buildCarQuery]
    simp only [alookup_append,
      alookup_seatsPart_self,
      alookup_strFilterPart_ne (show ("seats" : String) ≠ "type" by decide),
      alookup_strFilterPart_ne (show ("seats" : String) ≠ "brand" by decide),
      alookup_strFilterPart_ne (show ("seats" : String) ≠ "transmission" by decide),
      alookup_strFilterPart_ne (show ("seats" : String) ≠ "fuel_type" by decide),
      alookup_pricePart_ne (show ("seats" : String) ≠ "price_per_day" by decide),
      Option.none_or, Option.or_none]
  · rw [buildCarQuery]
    simp only [alookup_append,
      alookup_pricePart_self,
      alookup_strFilterPart_ne (show ("price_per_day" : String) ≠ "type" by decide),
      alookup_strFilterPart_ne (show ("price_per_day" : String) ≠ "brand" by decide),
      alookup_strFilterPart_ne (show ("price_per_day" : String) ≠ "transmission" by decide),
      alookup_strFilterPart_ne (show ("price_per_day" : String) ≠ "fuel_type" by decide),
      alookup_seatsPart_ne (show ("price_per_day" : String) ≠ "seats" by decide),
      Option.none_or]
  · intro p hp
    rw [buildCarQuery] at hp
    simp only [List.mem_append] at hp
    rcases hp with ((((hp | hp) | hp) | hp) | hp) | hp
    · rw [(strFilterPart_mem hp).1]
      decide
    · rw [(strFilterPart_mem hp).1]
      decide
    · rw [(strFilterPart_mem hp).1]
      decide
    · rw [(strFilterPart_mem hp).1]
      decide
    · rw [(seatsPart_mem hp).1]
      decide
    · rw [(pricePart_mem hp).1]
      decide
  · intro h1 h2 h3 h4 h5 h6 h7
    rw [buildCarQuery, h1, h2, h3, h4, h5, h6, h7]
    rfl

/-- The filter set used to witness C4. -/
def c4Filters : CarFilters :=
  { type? := some "suv", seats_gte? := some 4, min_price? := some 10 }

/-- C4 (witness): the theorem applied to filters with `type = "suv"`,
`seats_gte = 4` and only `min_price` given. -/
theorem C4_buildCarQuery_exact_witness :
    (c4Filters.type? ≠ some "" ∧ c4Filters.brand? ≠ some "" ∧
     c4Filters.transmission? ≠ some "" ∧ c4Filters.fuel_type? ≠ some "") ∧
    alookup "type" (buildCarQuery c4Filters) = some (QCond.eq (.str "suv")) ∧
    alookup "brand" (buildCarQuery c4Filters) = none ∧
    alookup "seats" (buildCarQuery c4Filters) =
      some (QCond.range (some 4) none) ∧
    alookup "price_per_day" (buildCarQuery c4Filters) =
      some (QCond.range (some 10) none) := by
  have h := C4_buildCarQuery_exact c4Filters (by decide) (by decide)
    (by decide) (by decide)
  exact ⟨⟨by decide, by decide, by decide, by decide⟩,
    h.1, h.2.1, h.2.2.2.2.1, h.2.2.2.2.2.1⟩

theorem carParamsValid_limit {f : CarFilters} {limit : Int}
    (h : carParamsValid f limit = true) : 1 ≤ limit ∧ limit ≤ 200 := by
  simp only [carParamsValid, Bool.and_eq_true, decide_eq_true_eq] at h
  exact h.2

/-- C5: for every `GET /api/cars` call, the response `count` never exceeds
the requested `limit`, and every request whose `limit` lies outside
`[1, 200]` is rejected with status 400 (parameter validation is modelled
from the spec, sections 4.1 and 8, as FastAPI's framework validation is not
under `src/`). -/
theorem C5_limit_bounds (store? : Option (List Doc)) (f : CarFilters)
    (sort? : Option String) (limit : Int) :
    ((limit < 1 ∨ 200 < limit) →
       list_cars store? f sort? limit = .err 400 "validation error") ∧
    (∀ resp, list_cars store? f sort? limit = .ok resp →
       (resp.count : Int) ≤ limit) := by
  constructor
  · intro hlim
    have hv : carParamsValid f limit = false := by
      rw [carParamsValid, decide_eq_false (show ¬ (1 ≤ limit ∧ limit ≤ 200) by omega),
        Bool.and_false]
    rw [list_cars.eq_def, hv]
    rw [if_pos (show ¬ false = true by decide)]
  · intro resp hok
    cases store? with
    | none =>
      have h2 : (if ¬ carParamsValid f limit = true
          then (HttpResult.err 400 "validation error" : HttpResult ListResp)
          else .ok ⟨demoCarsNoDb.take limit.toNat,
                    (demoCarsNoDb.take limit.toNat).length⟩) = .ok resp := hok
      by_cases hv : carParamsValid f limit = true
      · rw [if_neg (fun hc => hc hv)] at h2
        injection h2 with h3
        obtain ⟨h1le, _⟩ := carParamsValid_limit hv
        rw [← h3]
        calc ((demoCarsNoDb.take limit.toNat).length : Int)
            ≤ (limit.toNat : Int) := by exact_mod_cast List.length_take_le _ _
          _ = limit := Int.toNat_of_nonneg (by omega)
      · rw [if_pos hv] at h2
        exact HttpResult.noConfusion h2
    | some store =>
      obtain ⟨hv, hser, hcount⟩ := list_cars_ok_inv hok
      have hlen := serializeItems_ok_length hser
      obtain ⟨h1le, _⟩ := carParamsValid_limit hv
      rw [hcount, hlen]
      calc (((applySort sort? (findDocs (buildCarQuery f) store)).take
              limit.toNat).length : Int)
          ≤ (limit.toNat : Int) := by exact_mod_cast List.length_take_le _ _
        _ = limit := Int.toNat_of_nonneg (by omega)

/-- C5 (witness): `limit = 500` is rejected with 400, and with `limit = 1`
the demo response count 1 does not exceed the limit. -/
theorem C5_limit_bounds_witness :
    (((500 : Int) < 1 ∨ (200 : Int) < 500) ∧
     list_cars none {} none 500 = .err 400 "validation error") ∧
    (list_cars none {} none 1 =
       .ok ⟨demoCarsNoDb.take 1, (demoCarsNoDb.take 1).length⟩ ∧
     (((⟨demoCarsNoDb.take 1, (demoCarsNoDb.take 1).length⟩ : ListResp).count : Int) ≤ 1)) :=
  ⟨⟨Or.inr (by decide), (C5_limit_bounds none {} none 500).1 (Or.inr (by decide))⟩,
   rfl, (C5_limit_bounds none {} none 1).2 _ rfl⟩

/-- C6: for every `GET /api/cars/{id}` call on a configured store, a
malformed id (failing the store's 24-hex-character ObjectId format) yields
status 400, and a well-formed id matching no car record yields status
404. -/
theorem C6_get_car_errors (store : List Doc) (car_id : String) :
    (isValidObjectId car_id = false →
       get_car (some store) car_id = .err 400 "Invalid car id") ∧
    (isValidObjectId car_id = true →
     findOne [("_id", QCond.eq (.oid car_id))] store = none →
       get_car (some store) car_id = .err 404 "Car not found") := by
  constructor
  · intro hval
    rw [get_car, if_pos (by simp [hval])]
  · intro hval hfind
    rw [get_car, if_neg (by simp [hval]), hfind]

/-- C6 (witness): the theorem applied to the empty store with the malformed
id `"zz"` and the well-formed but absent id
`"0123456789abcdef01234567"`. -/
theorem C6_get_car_errors_witness :
    (isValidObjectId "zz" = false ∧
     get_car (some []) "zz" = .err 400 "Invalid car id") ∧
    (isValidObjectId "0123456789abcdef01234567" = true ∧
     findOne [("_id", QCond.eq (.oid "0123456789abcdef01234567"))] [] = none ∧
     get_car (some []) "0123456789abcdef01234567" =
       .err 404 "Car not found") :=
  ⟨⟨by decide, (C6_get_car_errors [] "zz").1 (by decide)⟩,
   by decide, rfl,
   (C6_get_car_errors [] "0123456789abcdef01234567").2 (by decide) rfl⟩

/-- C7: for every `POST /api/bookings` request on a configured store whose
`car_id` is well-formed but names no existing car, the response is 404 and
the store state — in particular the booking collection — is unchanged. -/
theorem C7_create_booking_missing_car (db : DB) (p : BookingRequest)
    (hval : isValidObjectId p.car_id = true)
    (hfind : findOne [("_id", QCond.eq (.oid p.car_id))] db.car = none) :
    create_booking (some db) p = (.err 404 "Car not found", some db) := by
  rw [create_booking, if_neg (by simp [hval]), hfind]

/-- The booking request used to witness C7 and C8. -/
def c7Req : BookingRequest :=
  { user_id := "u1", car_id := "0123456789abcdef01234567",
    pickup_location := "Downtown", dropoff_location := "Airport",
    start_date := "2025-12-01", end_date := "2025-12-05",
    total_price := 356, notes := none }

/-- C7 (witness): the theorem applied to an empty store. -/
theorem C7_create_booking_missing_car_witness :
    isValidObjectId c7Req.car_id = true ∧
    findOne [("_id", QCond.eq (.oid c7Req.car_id))] (DB.mk [] [] 0).car = none ∧
    create_booking (some (DB.mk [] [] 0)) c7Req =
      (.err 404 "Car not found", some (DB.mk [] [] 0)) :=
  ⟨by decide, rfl,
   C7_create_booking_missing_car (DB.mk [] [] 0) c7Req (by decide) rfl⟩

/-- C8: for every `POST /api/bookings` request on a configured store whose
`car_id` names an existing car and whose store-assigned identifier is fresh
and well-formed, the response is 200-class and echoes every submitted field
plus the assigned `id` and the schema default `status = "pending"` (the
insert-and-default behaviour of `create_document` is modelled from the spec,
as `database.py` is not under `src/`). -/
theorem C8_create_booking_success (db : DB) (p : BookingRequest) (car : Doc)
    (hval : isValidObjectId p.car_id = true)
    (hcar : findOne [("_id", QCond.eq (.oid p.car_id))] db.car = some car)
    (hcar_ne : car ≠ [])
    (hfreshval : isValidObjectId (oidOfNat db.nextId) = true)
    (hfresh : ∀ b ∈ db.booking,
       matchesQuery [("_id", QCond.eq (.oid (oidOfNat db.nextId)))] b = false) :
    ∃ resp db2,
      create_booking (some db) p = (.ok (some resp), some db2) ∧
      alookup "user_id" resp = some (.str p.user_id) ∧
      alookup "car_id" resp = some (.str p.car_id) ∧
      alookup "pickup_location" resp = some (.str p.pickup_location) ∧
      alookup "dropoff_location" resp = some (.str p.dropoff_location) ∧
      alookup "start_date" resp = some (.str p.start_date) ∧
      alookup "end_date" resp = some (.str p.end_date) ∧
      alookup "total_price" resp = some (.num p.total_price) ∧
      alookup "notes" resp =
        some (match p.notes with | some s => .str s | none => .null) ∧
      alookup "id" resp = some (.str (oidOfNat db.nextId)) ∧
      alookup "status" resp = some (.str "pending") := by
  have hbwd : bookingWithDefaults (modelDump p) =
      modelDump p ++ [("status", BVal.str "pending"),
                      ("payment_status", BVal.str "unpaid")] := rfl
  have hq : findOne [("_id", QCond.eq (.oid (oidOfNat db.nextId)))]
      (db.booking ++
        [("_id", BVal.oid (oidOfNat db.nextId)) :: bookingWithDefaults (modelDump p)]) =
      some (("_id", BVal.oid (oidOfNat db.nextId)) :: bookingWithDefaults (modelDump p)) := by
    rw [findOne, List.find?_append,
      List.find?_eq_none.mpr (fun b hb => by simp [hfresh b hb]), Option.none_or]
    rw [List.find?_cons_of_pos]
    simp [matchesQuery, matchesCond, alookup, condHolds, bvalEqScalar]
  have hser : serialize_doc
      (("_id", BVal.oid (oidOfNat db.nextId)) :: bookingWithDefaults (modelDump p)) =
      .ok (stringifyOids (setKey "id" (.str (oidOfNat db.nextId))
        (bookingWithDefaults (modelDump p)))) := by
    have h0 := serialize_doc_of_alookup
      (d := ("_id", BVal.oid (oidOfNat db.nextId)) :: bookingWithDefaults (modelDump p))
      (v := .oid (oidOfNat db.nextId)) (by simp [alookup])
    simpa [eraseKey, strOfBVal] using h0
  have hsetK : setKey "id" (.str (oidOfNat db.nextId))
      (bookingWithDefaults (modelDump p)) =
      bookingWithDefaults (modelDump p) ++ [("id", BVal.str (oidOfNat db.nextId))] := by
    apply setKey_of_not_mem
    rw [hbwd, keysOf_append]
    simp [modelDump, keysOf]
  have hmain : create_booking (some db) p =
      (.ok (some (stringifyOids (setKey "id" (.str (oidOfNat db.nextId))
         (bookingWithDefaults (modelDump p))))),
       some (⟨db.car,
              db.booking ++ [("_id", BVal.oid (oidOfNat db.nextId)) ::
                bookingWithDefaults (modelDump p)],
              db.nextId + 1⟩ : DB)) := by
    rw [create_booking, if_neg (by simp [hval]), hcar]
    show (if car.isEmpty
        then ((HttpResult.err 404 "Car not found" : HttpResult (Option Doc)), some db)
        else if ¬ isValidObjectId (oidOfNat db.nextId) = true
        then (.err 500 "Invalid objectid",
              some (⟨db.car,
                     db.booking ++ [("_id", BVal.oid (oidOfNat db.nextId)) ::
                       bookingWithDefaults (modelDump p)],
                     db.nextId + 1⟩ : DB))
        else
          match serializeDocOpt (findOne
              [("_id", QCond.eq (.oid (oidOfNat db.nextId)))]
              (db.booking ++ [("_id", BVal.oid (oidOfNat db.nextId)) ::
                bookingWithDefaults (modelDump p)])) with
          | .ok d? => (.ok d?,
              some (⟨db.car,
                     db.booking ++ [("_id", BVal.oid (oidOfNat db.nextId)) ::
                       bookingWithDefaults (modelDump p)],
                     db.nextId + 1⟩ : DB))
          | .error e => (.err 500 e,
              some (⟨db.car,
                     db.booking ++ [("_id", BVal.oid (oidOfNat db.nextId)) ::
                       bookingWithDefaults (modelDump p)],
                     db.nextId + 1⟩ : DB))) = _
    rw [if_neg (by simpa [List.isEmpty_iff] using hcar_ne),
      if_neg (by simp [hfreshval]), hq, serializeDocOpt, hser]
    rfl
  refine ⟨_, _, hmain, ?_, ?_, ?_, ?_, ?_, ?_, ?_, ?_, ?_, ?_⟩
  · rw [hsetK, hbwd]
    simp [alookup_stringifyOids, alookup_append, modelDump, alookup, stringifyVal]
  · rw [hsetK, hbwd]
    simp [alookup_stringifyOids, alookup_append, modelDump, alookup, stringifyVal]
  · rw [hsetK, hbwd]
    simp [alookup_stringifyOids, alookup_append, modelDump, alookup, stringifyVal]
  · rw [hsetK, hbwd]
    simp [alookup_stringifyOids, alookup_append, modelDump, alookup, stringifyVal]
  · rw [hsetK, hbwd]
    simp [alookup_stringifyOids, alookup_append, modelDump, alookup, stringifyVal]
  · rw [hsetK, hbwd]
    simp [alookup_stringifyOids, alookup_append, modelDump, alookup, stringifyVal]
  · rw [hsetK, hbwd]
    simp [alookup_stringifyOids, alookup_append, modelDump, alookup, stringifyVal]
  · rw [hsetK, hbwd]
    cases hn : p.notes with
    | none => simp [alookup_stringifyOids, alookup_append, modelDump, alookup,
        stringifyVal, hn]
    | some s => simp [alookup_stringifyOids, alookup_append, modelDump, alookup,
        stringifyVal, hn]
  · rw [hsetK, hbwd]
    simp [alookup_stringifyOids, alookup_append, modelDump, alookup, stringifyVal]
  · rw [hsetK, hbwd]
    simp [alookup_stringifyOids, alookup_append, modelDump, alookup, stringifyVal]

/-- The car record of the C8 witness store. -/
def c8Car : Doc := [("_id", BVal.oid "0123456789abcdef01234567")]

/-- The store state of the C8 witness: one car, no bookings. -/
def c8Db : DB := DB.mk [c8Car] [] 0

/-- C8 (witness): the theorem applied to a one-car store and the concrete
booking request `c7Req`. -/
theorem C8_create_booking_success_witness :
    isValidObjectId c7Req.car_id = true ∧
    findOne [("_id", QCond.eq (.oid c7Req.car_id))] c8Db.car = some c8Car ∧
    c8Car ≠ [] ∧
    isValidObjectId (oidOfNat c8Db.nextId) = true ∧
    (∀ b ∈ c8Db.booking,
       matchesQuery [("_id", QCond.eq (.oid (oidOfNat c8Db.nextId)))] b = false) ∧
    (∃ resp db2,
      create_booking (some c8Db) c7Req = (.ok (some resp), some db2) ∧
      alookup "user_id" resp = some (.str c7Req.user_id) ∧
      alookup "car_id" resp = some (.str c7Req.car_id) ∧
      alookup "pickup_location" resp = some (.str c7Req.pickup_location) ∧
      alookup "dropoff_location" resp = some (.str c7Req.dropoff_location) ∧
      alookup "start_date" resp = some (.str c7Req.start_date) ∧
      alookup "end_date" resp = some (.str c7Req.end_date) ∧
      alookup "total_price" resp = some (.num c7Req.total_price) ∧
      alookup "notes" resp =
        some (match c7Req.notes with | some s => .str s | none => .null) ∧
      alookup "id" resp = some (.str (oidOfNat c8Db.nextId)) ∧
      alookup "status" resp = some (.str "pending")) :=
  ⟨by decide, rfl, by simp [c8Car], by decide, by simp [c8Db],
   C8_create_booking_success c8Db c7Req c8Car (by decide) rfl
     (by simp [c8Car]) (by decide) (by simp [c8Db])⟩

theorem findDocs_nil (coll : List Doc) : findDocs [] coll = coll := by
  rw [findDocs]
  apply List.filter_eq_self.mpr
  intro a _
  rfl

theorem count_documents_nil (coll : List Doc) :
    count_documents [] coll = coll.length := by
  rw [count_documents, findDocs_nil]

theorem insertManyGo_length (nextId : Nat) (l : List Doc) :
    (insertManyGo nextId l).length = l.length := by
  induction l generalizing nextId with
  | nil => rfl
  | cons d ds ih => simp [insertManyGo, ih]

/-- C9: `POST /api/seed` on a configured store is idempotent with respect to
stored cars: when any car record exists it reports that cars already exist
and inserts nothing, otherwise it bulk-inserts exactly the three fixed demo
records; hence a second call reports cars already exist and leaves the state
of the first call unchanged. -/
theorem C9_seed_idempotent (db : DB) :
    (db.car ≠ [] →
       seed_demo_cars (some db) = (.okMsg "Cars already exist", some db)) ∧
    (db.car = [] →
       seed_demo_cars (some db) =
         (.okInserted 3,
          some ⟨insertManyGo db.nextId demoSeedCars, db.booking, db.nextId + 3⟩) ∧
       (insertManyGo db.nextId demoSeedCars).length = 3) ∧
    (∀ db2, (seed_demo_cars (some db)).2 = some db2 →
       seed_demo_cars (some db2) = (.okMsg "Cars already exist", some db2)) := by
  have hexists : ∀ d : DB, d.car ≠ [] →
      seed_demo_cars (some d) = (.okMsg "Cars already exist", some d) := by
    intro d hd
    rw [seed_demo_cars,
      if_pos (by rw [count_documents_nil]; exact List.length_pos.mpr hd)]
  have hempty : db.car = [] →
      seed_demo_cars (some db) =
        (.okInserted 3,
         some ⟨insertManyGo db.nextId demoSeedCars, db.booking, db.nextId + 3⟩) := by
    intro hd
    rw [seed_demo_cars,
      if_neg (by rw [count_documents_nil, hd]; simp), hd]
    rfl
  refine ⟨hexists db, fun hd => ⟨hempty hd, insertManyGo_length _ _⟩, ?_⟩
  intro db2 h2
  by_cases hd : db.car = []
  · rw [hempty hd] at h2
    simp only [Option.some.injEq] at h2
    apply hexists
    rw [← h2]
    intro hnil
    have hnil2 : insertManyGo db.nextId demoSeedCars = [] := hnil
    have hlen := insertManyGo_length db.nextId demoSeedCars
    rw [hnil2] at hlen
    exact absurd hlen.symm (by decide)
  · rw [hexists db hd] at h2
    simp only [Option.some.injEq] at h2
    rw [← h2]
    exact hexists db hd

/-- C9 (witness): seeding an empty store inserts three records; the second
call reports cars already exist and leaves the state unchanged. -/
theorem C9_seed_idempotent_witness :
    ((DB.mk [] [] 0).car = [] ∧
     seed_demo_cars (some (DB.mk [] [] 0)) =
       (.okInserted 3, some ⟨insertManyGo 0 demoSeedCars, [], 3⟩) ∧
     (insertManyGo 0 demoSeedCars).length = 3) ∧
    ((seed_demo_cars (some (DB.mk [] [] 0))).2 =
       some ⟨insertManyGo 0 demoSeedCars, [], 3⟩ ∧
     seed_demo_cars (some (⟨insertManyGo 0 demoSeedCars, [], 3⟩ : DB)) =
       (.okMsg "Cars already exist",
        some (⟨insertManyGo 0 demoSeedCars, [], 3⟩ : DB))) := by
  have h := C9_seed_idempotent (DB.mk [] [] 0)
  have h1 := h.2.1 rfl
  exact ⟨⟨rfl, h1.1, h1.2⟩,
    ⟨by rw [h1.1], h.2.2 _ (by rw [h1.1])⟩⟩

/-- C10 (implicit): for the string filter parameters of `GET /api/cars` and
the `user_id` parameter of `GET /api/bookings`, an empty-string value is
treated exactly like an absent parameter: it contributes no predicate to the
built query, so it does not restrict results to records whose field equals
the empty string. -/
theorem C10_empty_string_filters (f : CarFilters) :
    buildCarQuery { f with type? := some "" } =
      buildCarQuery { f with type? := none } ∧
    buildCarQuery { f with brand? := some "" } =
      buildCarQuery { f with brand? := none } ∧
    buildCarQuery { f with transmission? := some "" } =
      buildCarQuery { f with transmission? := none } ∧
    buildCarQuery { f with fuel_type? := some "" } =
      buildCarQuery { f with fuel_type? := none } ∧
    buildBookingQuery (some "") = buildBookingQuery none :=
  ⟨rfl, rfl, rfl, rfl, rfl⟩
